import Mathlib

/-!
Verification of the audio-recording lifecycle of the ielts-spk repository.

The repository contains two implementations of the `useAudioRecorder` hook:

* `src/src/hooks/useAudioRecorder.ts` (the one imported by the UI components;
  embedded below in namespace `Recorder`), and
* `src/unnamed/part_002`, a variant of the same hook with a stop-fallback
  timer and a zero-chunk check in the stop handler (embedded in namespace
  `RecorderP2`).

Embedding conventions:

* A binary chunk (a `Blob` slice delivered by `ondataavailable`) is a byte
  list `Chunk := List Nat`; the assembled artifact (`new Blob(chunks)`) is
  the concatenation `List.flatten` of the chunk list, and the object URL
  created from it is modelled by the blob's bytes themselves, so the React
  state field `audioUrl : Option (List Nat)` is `none` exactly when no
  object URL has been created (the "artifact handle" of the spec).
* The React state (`RecordingState`) and the mutable refs of the hook are
  flattened into one structure `HookState`.  Ref/resource pairs
  (`streamRef` + live tracks, `audioContextRef` + open context,
  `intervalRef` + scheduled interval) are conflated into one Boolean each.
* External teardown calls that can throw (`MediaRecorder.stop`,
  `MediaStreamTrack.stop`, `AudioContext.close`, `URL.revokeObjectURL`)
  are driven by a fault oracle `Faults`; a function that does not guard a
  call with `try`/`catch` propagates the fault as `Except.error`, carrying
  the state as mutated so far.  Each executed release call is recorded in
  an attempt list, so fault independence of the teardown steps is
  observable.
* The spec status vocabulary maps to the code as: `Capturing` iff
  `isRecording`, `Ready` iff an artifact handle (`audioUrl`) is present,
  and `Idle`/`Failed` are both represented by the remaining states (the
  code has no field distinguishing them; the trace model below adds a
  ghost `started` flag to separate them).
-/

/-- A binary chunk delivered by the encoder: a list of bytes. -/
abbrev Chunk := List Nat

/-- The session statuses used by the specification. -/
inductive Status where
  | Idle
  | Capturing
  | Ready
  | Failed
deriving DecidableEq, Repr

/-- Flattened state of the `useAudioRecorder` hook: the React
`RecordingState` fields, the `audioLevel` state, and the mutable refs.
`audioUrl` holds the bytes of the blob behind the created object URL. -/
structure HookState where
  isRecording : Bool
  isPaused : Bool
  duration : Nat
  audioUrl : Option (List Nat)
  isUploading : Bool
  audioLevel : Nat
  mediaRecorder : Bool
  streamOpen : Bool
  intervalSet : Bool
  audioContext : Bool
  analyser : Bool
  chunks : List Chunk
deriving DecidableEq, Repr

/-- Fault oracle: which external teardown calls throw when invoked. -/
structure Faults where
  recorderStop : Bool
  trackStop : Bool
  contextClose : Bool
  urlRevoke : Bool
deriving DecidableEq, Repr

/-- The run in which no external call throws. -/
def noFaults : Faults := ⟨false, false, false, false⟩

/-- Identifiers for the individual release steps of the teardown code. -/
inductive TeardownStep where
  | recorderStop
  | trackStop
  | intervalClear
  | contextClose
  | urlRevoke
deriving DecidableEq, Repr

/-- The error thrown by `startRecording` when `getUserMedia` rejects
(permission denied or no device):
`throw new Error('Failed to start recording. ...')`. -/
inductive StartError where
  | deviceUnavailable
deriving DecidableEq, Repr

/-- The initial value of the hook state: `RecordingState` as initialised by
`useState`, level 0, all refs null, chunk buffer empty. -/
def resetHookState : HookState :=
  { isRecording := false, isPaused := false, duration := 0, audioUrl := none,
    isUploading := false, audioLevel := 0, mediaRecorder := false,
    streamOpen := false, intervalSet := false, audioContext := false,
    analyser := false, chunks := [] }

/-- Status of a hook state under the spec's vocabulary.  The code cannot
distinguish `Idle` from `Failed` (both are `isRecording = false` with no
artifact handle), so both map to `Idle` here. -/
def statusOf (s : HookState) : Status :=
  if s.isRecording then Status.Capturing
  else if s.audioUrl.isSome then Status.Ready
  else Status.Idle

namespace Recorder

/-- `startRecording` of `src/src/hooks/useAudioRecorder.ts`.  `granted`
models whether `navigator.mediaDevices.getUserMedia` resolves.  On grant
the code stores the stream, opens an `AudioContext` and analyser, creates
a `MediaRecorder`, clears the chunk buffer, starts the recorder, sets
`isRecording := true` and `duration := 0` (spreading the previous state,
so `audioUrl` is kept), and schedules the one-second interval.  On denial
the `catch` block rethrows before any of those effects happened. -/
def startRecording (granted : Bool) (s : HookState) :
    HookState × Option StartError :=
  if granted then
    ({ s with streamOpen := true, audioContext := true, analyser := true,
              mediaRecorder := true, chunks := [], isRecording := true,
              duration := 0, intervalSet := true }, none)
  else
    (s, some StartError.deviceUnavailable)

/-- `mediaRecorder.ondataavailable`: appends the event's data to the chunk
buffer when `event.data.size > 0`. -/
def ondataavailable (d : Chunk) (s : HookState) : HookState :=
  if 0 < d.length then { s with chunks := s.chunks ++ [d] } else s

/-- `mediaRecorder.onstop` of `src/src/hooks/useAudioRecorder.ts`:
unconditionally builds `new Blob(chunksRef.current)`, creates an object
URL for it, stores it in `audioUrl`, and resets the audio level.  There is
no zero-chunk check in this version. -/
def onstop (s : HookState) : HookState :=
  { s with audioUrl := some s.chunks.flatten, audioLevel := 0 }

/-- `stopRecording` of `src/src/hooks/useAudioRecorder.ts`.  Guarded by
`mediaRecorderRef.current && recordingState.isRecording`; inside the guard
it stops the recorder, sets `isRecording := false`, stops the stream
tracks, clears the interval and closes the audio context.  None of these
calls is wrapped in `try`/`catch`, so a fault aborts the rest. -/
def stopRecording (f : Faults) (s : HookState) : Except HookState HookState :=
  if s.mediaRecorder ∧ s.isRecording then
    if f.recorderStop then Except.error s
    else
      let s1 := { s with isRecording := false }
      if s1.streamOpen ∧ f.trackStop then Except.error s1
      else
        let s2 := { s1 with streamOpen := false }
        let s3 := { s2 with intervalSet := false }
        if s3.audioContext ∧ f.contextClose then Except.error s3
        else Except.ok { s3 with audioContext := false }
  else Except.ok s

/-- `getAudioBlob`: returns `new Blob(chunksRef.current)` when at least one
chunk has been captured, else `null`.  It only reads `chunksRef`, so it is
a pure function of the state in this embedding. -/
def getAudioBlob (s : HookState) : Option (List Nat) :=
  if 0 < s.chunks.length then some s.chunks.flatten else none

/-- `clearRecording` of `src/src/hooks/useAudioRecorder.ts`.  Steps, in
source order: revoke the object URL (if any), stop an active recorder,
stop the stream tracks, clear the interval, close the audio context, null
all refs, reset the React state and the audio level.  No step is guarded
by `try`/`catch`, so the first throwing call aborts the remaining steps
and propagates (`Except.error` carries the state reached so far together
with the release steps attempted up to and including the throwing one). -/
def clearRecording (f : Faults) (s : HookState) :
    Except (HookState × List TeardownStep) (HookState × List TeardownStep) :=
  let a0 : List TeardownStep :=
    if s.audioUrl.isSome then [TeardownStep.urlRevoke] else []
  if s.audioUrl.isSome ∧ f.urlRevoke then Except.error (s, a0)
  else
    let a1 := a0 ++ (if s.mediaRecorder ∧ s.isRecording then [TeardownStep.recorderStop] else [])
    if s.mediaRecorder ∧ s.isRecording ∧ f.recorderStop then Except.error (s, a1)
    else
      let a2 := a1 ++ (if s.streamOpen then [TeardownStep.trackStop] else [])
      if s.streamOpen ∧ f.trackStop then Except.error (s, a2)
      else
        let s1 := { s with streamOpen := false }
        let a3 := a2 ++ (if s1.intervalSet then [TeardownStep.intervalClear] else [])
        let s2 := { s1 with intervalSet := false }
        let a4 := a3 ++ (if s2.audioContext then [TeardownStep.contextClose] else [])
        if s2.audioContext ∧ f.contextClose then Except.error (s2, a4)
        else Except.ok (resetHookState, a4)

/-- `forceReset` of `src/src/hooks/useAudioRecorder.ts`.  Same teardown
steps as `clearRecording` but in a different order (recorder, tracks,
interval, context, URL) and with every throwing call individually wrapped
in `try`/`catch` (`console.warn` only), so the function always completes
and returns the fully reset state.  The attempt list records every release
step that was executed. -/
def forceReset (f : Faults) (s : HookState) : HookState × List TeardownStep :=
  let a0 : List TeardownStep :=
    if s.mediaRecorder ∧ s.isRecording then [TeardownStep.recorderStop] else []
  let a1 := a0 ++ (if s.streamOpen then [TeardownStep.trackStop] else [])
  let s1 := { s with streamOpen := false }
  let a2 := a1 ++ (if s1.intervalSet then [TeardownStep.intervalClear] else [])
  let s2 := { s1 with intervalSet := false }
  let a3 := a2 ++ (if s2.audioContext then [TeardownStep.contextClose] else [])
  let s3 := { s2 with audioContext := false }
  let a4 := a3 ++ (if s3.audioUrl.isSome then [TeardownStep.urlRevoke] else [])
  (resetHookState, a4)

end Recorder

namespace RecorderP2

/-- `mediaRecorder.onstop` of `src/unnamed/part_002` (body of the delayed
`setTimeout` callback): with an empty chunk buffer it only clears
`isRecording` ("No audio chunks available") and returns; with a zero-size
blob likewise; otherwise it creates the object URL from the blob, stores
it together with `isRecording := false`, and resets the audio level. -/
def onstop (s : HookState) : HookState :=
  if s.chunks.length = 0 then { s with isRecording := false }
  else if s.chunks.flatten.length = 0 then { s with isRecording := false }
  else { s with audioUrl := some s.chunks.flatten, isRecording := false,
                audioLevel := 0 }

/-- `handleStopFallback` of `src/unnamed/part_002`: runs when the
recorder's stop notification has not fired within the 2-second fallback
window.  With a non-empty chunk buffer it assembles the blob from the
chunks that have arrived and stores the handle; either way it clears
`isRecording` and resets the audio level. -/
def handleStopFallback (s : HookState) : HookState :=
  if 0 < s.chunks.length then
    { s with audioUrl := some s.chunks.flatten, isRecording := false,
             audioLevel := 0 }
  else { s with isRecording := false, audioLevel := 0 }

/-- Synchronous part of `stopRecording` of `src/unnamed/part_002` (guarded
by `mediaRecorderRef.current && recordingState.isRecording`): it clears
the interval, arms the 2-second fallback timer, calls the recorder's
`stop()` and stops the stream tracks.  It does not touch `isRecording`
(that happens in `onstop` or in the fallback) and the `audioContext.close`
call is commented out in this version. -/
def stopRecording (s : HookState) : HookState :=
  if s.mediaRecorder ∧ s.isRecording then
    { s with intervalSet := false, streamOpen := false }
  else s

/-- The two completion signals racing after `stopRecording`: the
recorder's stop notification (which also cancels the fallback timer), or
the fallback timer firing because the notification never came. -/
inductive StopSignal where
  | onstopFired
  | fallbackTimeout
deriving DecidableEq, Repr

/-- Resolution of the stop race: exactly one of the two signals runs. -/
def resolveStop (sig : StopSignal) (s : HookState) : HookState :=
  match sig with
  | StopSignal.onstopFired => onstop s
  | StopSignal.fallbackTimeout => handleStopFallback s

end RecorderP2

/-- State of the hook right after a successful `startRecording` (both
versions perform the same state effects on grant). -/
def startedCapture (s : HookState) : HookState :=
  (Recorder.startRecording true s).1

/-- A full recording session of `src/src/hooks/useAudioRecorder.ts`:
successful `startRecording`, a sequence of `ondataavailable` events, a
fault-free `stopRecording`, then the recorder's `onstop` notification. -/
def sessionV1 (s0 : HookState) (ds : List Chunk) : Except HookState HookState :=
  (Recorder.stopRecording noFaults
      (ds.foldl (fun s d => Recorder.ondataavailable d s) (startedCapture s0))).map
    Recorder.onstop

/-- The state of a `src/unnamed/part_002` session after the synchronous
part of `stopRecording`: successful start, the data events, then the
synchronous teardown, with the stop race still unresolved. -/
def stoppingStateP2 (s0 : HookState) (ds : List Chunk) : HookState :=
  RecorderP2.stopRecording
    (ds.foldl (fun s d => Recorder.ondataavailable d s) (startedCapture s0))

/-- A full recording session of `src/unnamed/part_002`: successful start,
data events, synchronous stop, and the resolution of the stop race by the
signal `sig`. -/
def sessionP2 (s0 : HookState) (ds : List Chunk) (sig : RecorderP2.StopSignal) :
    HookState :=
  RecorderP2.resolveStop sig (stoppingStateP2 s0 ds)

/-- The chunks that `ondataavailable` actually buffers out of a sequence of
data events: the ones with `size > 0`. -/
def nonemptyData (ds : List Chunk) : List Chunk :=
  ds.filter (fun d => decide (0 < d.length))

/-- The release steps `forceReset` attempts on a given state, in source
order: recorder stop (when a recorder exists and a capture is active),
track stop (when a stream ref is held), interval clear, context close, URL
revoke (when an artifact handle exists). -/
def teardownAttempts (s : HookState) : List TeardownStep :=
  (if s.mediaRecorder ∧ s.isRecording then [TeardownStep.recorderStop] else [])
    ++ (if s.streamOpen then [TeardownStep.trackStop] else [])
    ++ (if s.intervalSet then [TeardownStep.intervalClear] else [])
    ++ (if s.audioContext then [TeardownStep.contextClose] else [])
    ++ (if s.audioUrl.isSome then [TeardownStep.urlRevoke] else [])

/-- The release steps `clearRecording` attempts on a given state when no
step throws, in its source order: URL revoke first, then recorder stop,
track stop, interval clear, context close. -/
def clearAttempts (s : HookState) : List TeardownStep :=
  (if s.audioUrl.isSome then [TeardownStep.urlRevoke] else [])
    ++ (if s.mediaRecorder ∧ s.isRecording then [TeardownStep.recorderStop] else [])
    ++ (if s.streamOpen then [TeardownStep.trackStop] else [])
    ++ (if s.intervalSet then [TeardownStep.intervalClear] else [])
    ++ (if s.audioContext then [TeardownStep.contextClose] else [])

/-- Observable session state of the coupled system: the hook of
`src/src/hooks/useAudioRecorder.ts` driven by the `AudioRecorder` host
component of `src/src/components/NavigationControls.tsx`.  The fields up
to `interval` mirror the hook state; `started`, `pendingStop` and
`completed` are ghost observers: whether a `startRecording` has succeeded
since the last clear/reset, whether a recorder `stop()` call has not yet
been answered by its `onstop` notification, and whether an `onstop`
notification has fired since the last clear/reset. -/
structure Sys where
  isRecording : Bool
  duration : Nat
  audioUrl : Option (List Nat)
  chunks : List Chunk
  recorder : Bool
  stream : Bool
  interval : Bool
  started : Bool
  pendingStop : Bool
  completed : Bool
deriving DecidableEq, Repr

/-- Events of the coupled host/hook system: a user `start` (the host's
Start button, rendered only while not recording and disabled once
`duration >= timeLimit`), an encoder data callback, a one-second interval
tick (after which the host's auto-stop effect runs), a user `stop`, the
recorder's `onstop` notification, and `clearRecording`/`forceReset`. -/
inductive Ev where
  | start
  | data (d : Chunk)
  | tick
  | stop
  | complete
  | clear
deriving DecidableEq, Repr

/-- `stopRecording` of `src/src/hooks/useAudioRecorder.ts` as a system
step: inside the `mediaRecorderRef.current && recordingState.isRecording`
guard it stops the recorder (arming the pending `onstop`), clears
`isRecording`, stops the stream tracks and clears the interval. -/
def sysStop (s : Sys) : Sys :=
  if s.recorder = true ∧ s.isRecording = true then
    { s with isRecording := false, stream := false, interval := false,
             pendingStop := true }
  else s

/-- One step of the coupled host/hook system with time limit `limit`.
`tick` increments `duration` (the interval callback) and then runs the
host's auto-stop effect, which calls `stopRecording` as soon as
`isRecording && duration >= timeLimit`.  `complete` is the `onstop`
handler of this hook version: it unconditionally assembles the blob from
the buffered chunks and stores the object URL.  `clear` is the common
effect of `clearRecording`/`forceReset` when no teardown step throws. -/
def sysStep (limit : Nat) (s : Sys) : Ev → Sys
  | Ev.start =>
      if s.isRecording = false ∧ s.duration < limit then
        { s with recorder := true, stream := true, chunks := [],
                 isRecording := true, duration := 0, interval := true,
                 started := true, pendingStop := false }
      else s
  | Ev.data d =>
      if s.recorder = true ∧ 0 < d.length then
        { s with chunks := s.chunks ++ [d] }
      else s
  | Ev.tick =>
      if s.interval = true then
        let s1 := { s with duration := s.duration + 1 }
        if s1.isRecording = true ∧ limit ≤ s1.duration then sysStop s1 else s1
      else s
  | Ev.stop => sysStop s
  | Ev.complete =>
      if s.pendingStop = true then
        { s with audioUrl := some s.chunks.flatten, pendingStop := false,
                 completed := true }
      else s
  | Ev.clear =>
      { isRecording := false, duration := 0, audioUrl := none, chunks := [],
        recorder := false, stream := false, interval := false,
        started := false, pendingStop := false, completed := false }

/-- Initial system state: freshly mounted component, nothing acquired. -/
def sysInit : Sys :=
  { isRecording := false, duration := 0, audioUrl := none, chunks := [],
    recorder := false, stream := false, interval := false, started := false,
    pendingStop := false, completed := false }

/-- Run of the coupled system on a sequence of events. -/
def sysRun (limit : Nat) (es : List Ev) : Sys :=
  es.foldl (sysStep limit) sysInit

/-- Spec status of a system state.  `Capturing` iff recording; otherwise a
state that has seen a start since the last reset is `Ready` when an
artifact handle exists and `Failed` when it does not; a fresh/reset state
is `Idle`. -/
def sysStatus (s : Sys) : Status :=
  if s.isRecording = true then Status.Capturing
  else if s.started = true then
    (if s.audioUrl.isSome = true then Status.Ready else Status.Failed)
  else Status.Idle

/-- Inductive invariant of the coupled system with the 90-second limit:
the interval only runs while recording, recording implies a start happened
and a recorder exists, and once `duration` has reached the limit the
session is no longer recording. -/
def sysInv (s : Sys) : Prop :=
  (s.interval = true → s.isRecording = true)
  ∧ (s.isRecording = true → s.started = true)
  ∧ (s.isRecording = true → s.recorder = true)
  ∧ (90 ≤ s.duration → s.isRecording = false ∧ s.started = true)

/-- A row of the `user_recordings` table
(`src/src/types/index.ts`).  `created_at` is the creation timestamp
(modelled as a number; only its order matters). -/
structure UserRecording where
  id : Nat
  user_id : Option Nat
  question_id : String
  audio_url : String
  duration : Nat
  created_at : Nat
deriving DecidableEq, Repr

/-- The ordering used by the history list: newest (largest `created_at`)
first, i.e. `.order('created_at', { ascending: false })`. -/
def newestFirst (a b : UserRecording) : Prop :=
  b.created_at ≤ a.created_at

instance : DecidableRel newestFirst :=
  fun a b => inferInstanceAs (Decidable (b.created_at ≤ a.created_at))

instance : IsTotal UserRecording newestFirst :=
  ⟨fun a b => Nat.le_total b.created_at a.created_at⟩

instance : IsTrans UserRecording newestFirst :=
  ⟨fun _ _ _ hab hbc => Nat.le_trans hbc hab⟩

/-- `fetchRecordings` of `src/src/hooks/useRecordingHistory.ts`: the query
`.eq('question_id', questionId).order('created_at', { ascending: false })
.limit(5)` over the `user_recordings` table, i.e. filter the table rows by
question id, sort them newest first, and keep at most the first 5. -/
def fetchRecordings (table : List UserRecording) (questionId : String) :
    List UserRecording :=
  (((table.filter (fun r => r.question_id == questionId)).insertionSort
      newestFirst).take 5)

/-- `addRecording` of `src/src/hooks/useRecordingHistory.ts`:
`setRecordings(prev => [recording, ...prev.slice(0, 4)])`. -/
def addRecording (recording : UserRecording) (prev : List UserRecording) :
    List UserRecording :=
  recording :: prev.take 4

lemma nonemptyData_nil : nonemptyData [] = [] := rfl

lemma nonemptyData_cons (d : Chunk) (ds : List Chunk) :
    nonemptyData (d :: ds)
      = if 0 < d.length then d :: nonemptyData ds else nonemptyData ds := by
  by_cases h : 0 < d.length <;> simp [nonemptyData, List.filter_cons, h]

lemma foldl_ondataavailable (ds : List Chunk) (s : HookState) :
    ds.foldl (fun s d => Recorder.ondataavailable d s) s
      = { s with chunks := s.chunks ++ nonemptyData ds } := by
  induction ds generalizing s with
  | nil => simp [nonemptyData_nil]
  | cons d ds ih =>
    rw [List.foldl_cons, ih]
    by_cases h : 0 < d.length
    · simp [Recorder.ondataavailable, h, nonemptyData_cons, List.append_assoc]
    · simp [Recorder.ondataavailable, h, nonemptyData_cons]

lemma flatten_nonemptyData (ds : List Chunk) :
    (nonemptyData ds).flatten = ds.flatten := by
  induction ds with
  | nil => rfl
  | cons d ds ih =>
    by_cases h : 0 < d.length
    · simp [nonemptyData_cons, h, ih]
    · have hd : d = [] := by
        simpa using Nat.le_antisymm (Nat.not_lt.mp h) (Nat.zero_le _)
      simp [nonemptyData_cons, h, hd, ih]

lemma nonemptyData_eq_nil (ds : List Chunk) :
    nonemptyData ds = [] ↔ ds.flatten = [] := by
  induction ds with
  | nil => simp [nonemptyData_nil]
  | cons d ds ih =>
    by_cases h : 0 < d.length
    · have hd : d ≠ [] := by
        intro hd
        simp [hd] at h
      simp [nonemptyData_cons, h, List.append_eq_nil, hd]
    · have hd : d = [] := by
        simpa using Nat.le_antisymm (Nat.not_lt.mp h) (Nat.zero_le _)
      simp [nonemptyData_cons, h, hd, ih]

lemma stoppingStateP2_eq (s0 : HookState) (ds : List Chunk) :
    stoppingStateP2 s0 ds
      = { s0 with streamOpen := false, audioContext := true, analyser := true,
                  mediaRecorder := true, chunks := nonemptyData ds,
                  isRecording := true, duration := 0, intervalSet := false } := by
  simp [stoppingStateP2, startedCapture, Recorder.startRecording,
    foldl_ondataavailable, RecorderP2.stopRecording]

lemma sessionP2_isRecording (s0 : HookState) (ds : List Chunk)
    (sig : RecorderP2.StopSignal) :
    (sessionP2 s0 ds sig).isRecording = false := by
  cases sig with
  | onstopFired =>
      simp only [sessionP2, RecorderP2.resolveStop, RecorderP2.onstop,
        stoppingStateP2_eq]
      split_ifs <;> rfl
  | fallbackTimeout =>
      simp only [sessionP2, RecorderP2.resolveStop, RecorderP2.handleStopFallback,
        stoppingStateP2_eq]
      split_ifs <;> rfl

lemma sessionP2_audioUrl_of_ne (s0 : HookState) (ds : List Chunk)
    (h : ds.flatten ≠ []) (sig : RecorderP2.StopSignal) :
    (sessionP2 s0 ds sig).audioUrl = some ds.flatten := by
  have hne : nonemptyData ds ≠ [] := fun hc => h ((nonemptyData_eq_nil ds).mp hc)
  have hfl : (nonemptyData ds).flatten = ds.flatten := flatten_nonemptyData ds
  have hsum : (List.map List.length ds).sum ≠ 0 := by
    intro hs
    apply h
    apply List.length_eq_zero.mp
    rw [List.length_flatten]
    exact hs
  cases sig with
  | onstopFired =>
      simp [sessionP2, RecorderP2.resolveStop, RecorderP2.onstop,
        stoppingStateP2_eq, List.length_eq_zero, hne, hfl, h, hsum]
  | fallbackTimeout =>
      simp [sessionP2, RecorderP2.resolveStop, RecorderP2.handleStopFallback,
        stoppingStateP2_eq, List.length_pos, hne, hfl]

lemma sessionP2_audioUrl_of_nil (s0 : HookState) (ds : List Chunk)
    (h : ds.flatten = []) (sig : RecorderP2.StopSignal) :
    (sessionP2 s0 ds sig).audioUrl = s0.audioUrl := by
  have hnil : nonemptyData ds = [] := (nonemptyData_eq_nil ds).mpr h
  cases sig <;>
    simp [sessionP2, RecorderP2.resolveStop, RecorderP2.onstop,
      RecorderP2.handleStopFallback, stoppingStateP2_eq, hnil]

/-- Claim C1 (amended).  A session that starts successfully, receives a
sequence of data events and is stopped while capturing ends out of
`Capturing`, and the artifact assembled by the stop handler is the
concatenation of the buffered chunks in arrival order, with byte length
the sum of the chunk lengths.  In the `part_002` variant zero buffered
chunks leave the artifact handle untouched (`Failed` for a session with no
prior handle); in `src/src/hooks/useAudioRecorder.ts` the handler instead
stores a handle unconditionally, so a zero-chunk session still ends with
an (empty) artifact handle rather than `Failed` — the zero-chunk clause of
the original claim holds only for the `part_002` variant. -/
theorem C1_amended : ∀ (s0 : HookState) (ds : List Chunk),
    (sessionV1 s0 ds).map (fun s => (s.isRecording, s.audioUrl))
        = Except.ok (false, some ds.flatten)
    ∧ ds.flatten.length = (ds.map List.length).sum
    ∧ (sessionP2 s0 ds RecorderP2.StopSignal.onstopFired).isRecording = false
    ∧ (ds.flatten ≠ [] →
        (sessionP2 s0 ds RecorderP2.StopSignal.onstopFired).audioUrl
          = some ds.flatten)
    ∧ (ds.flatten = [] →
        (sessionP2 s0 ds RecorderP2.StopSignal.onstopFired).audioUrl
          = s0.audioUrl) := by
  intro s0 ds
  refine ⟨?_, List.length_flatten ds, sessionP2_isRecording s0 ds _,
    fun h => sessionP2_audioUrl_of_ne s0 ds h _,
    fun h => sessionP2_audioUrl_of_nil s0 ds h _⟩
  simp [sessionV1, startedCapture, Recorder.startRecording,
    foldl_ondataavailable, Recorder.stopRecording, Recorder.onstop, noFaults,
    flatten_nonemptyData, Except.map]

/-- Claim C1, counterexample to the original statement: in
`src/src/hooks/useAudioRecorder.ts`, a session in which zero chunks
arrived still ends with an artifact handle (the object URL of an empty
blob) and is therefore `Ready`, not `Failed`. -/
theorem C1_counterexample :
    (sessionV1 resetHookState []).map (fun s => (statusOf s, s.audioUrl))
      = Except.ok (Status.Ready, some []) := by
  rfl

/-- Claim C1, witness: a concrete two-chunk session. -/
theorem C1_witness :
    (sessionV1 resetHookState [[1, 2], [3]]).map (fun s => (s.isRecording, s.audioUrl))
        = Except.ok (false, some [1, 2, 3])
    ∧ (sessionP2 resetHookState [[1, 2], [3]] RecorderP2.StopSignal.onstopFired).audioUrl
        = some [1, 2, 3] := by
  have h := C1_amended resetHookState [[1, 2], [3]]
  exact ⟨h.1, h.2.2.2.1 (by decide)⟩

/-- Claim C3 (confirmed).  When the session is not capturing — the
`isRecording` flag is false or no recorder handle exists — `stopRecording`
of `src/src/hooks/useAudioRecorder.ts` returns the state unchanged, with
no release call executed and no error, whatever faults the external calls
would have produced. -/
theorem C3_stop_noop : ∀ (f : Faults) (s : HookState),
    ¬ (s.mediaRecorder = true ∧ s.isRecording = true) →
    Recorder.stopRecording f s = Except.ok s := by
  intro f s h
  simp only [Recorder.stopRecording, if_neg h]

/-- Claim C3, witness: stopping an idle session is a no-op even when every
external call would throw. -/
theorem C3_witness :
    ¬ (resetHookState.mediaRecorder = true ∧ resetHookState.isRecording = true)
    ∧ Recorder.stopRecording ⟨true, true, true, true⟩ resetHookState
        = Except.ok resetHookState :=
  ⟨by decide, C3_stop_noop ⟨true, true, true, true⟩ resetHookState (by decide)⟩

/-- Claim C4 (amended).  A successful `startRecording` leaves the session
`Capturing` with `duration` reset to 0 and the chunk buffer cleared, but
it does not discard a previous artifact handle: the state update spreads
the previous state, so `audioUrl` keeps its previous value (it is only
replaced by the next stop completion, or removed by clear/reset). -/
theorem C4_amended : ∀ (s : HookState),
    (Recorder.startRecording true s).2 = none
    ∧ statusOf (Recorder.startRecording true s).1 = Status.Capturing
    ∧ (Recorder.startRecording true s).1.duration = 0
    ∧ (Recorder.startRecording true s).1.chunks = []
    ∧ (Recorder.startRecording true s).1.audioUrl = s.audioUrl := by
  intro s
  simp [Recorder.startRecording, statusOf]

/-- Claim C4, counterexample to the original statement: starting over a
`Ready` session keeps the previous artifact handle observable (the
playback UI keeps rendering it) while the new session is `Capturing`. -/
theorem C4_counterexample :
    (Recorder.startRecording true { resetHookState with audioUrl := some [7] }).1.audioUrl
        = some [7]
    ∧ (Recorder.startRecording true { resetHookState with audioUrl := some [7] }).1.isRecording
        = true := by
  decide

/-- Claim C5 (amended).  When device access is denied, `startRecording`
rethrows a `DeviceUnavailable` error to the caller and the session state
is completely unchanged — no field modified, no resource acquired, so the
call is retryable; consequently the session is still `Idle` whenever it
was `Idle` when `start()` was invoked. -/
theorem C5_amended : ∀ (s : HookState),
    Recorder.startRecording false s = (s, some StartError.deviceUnavailable)
    ∧ (statusOf s = Status.Idle →
        statusOf (Recorder.startRecording false s).1 = Status.Idle) := by
  intro s
  refine ⟨rfl, fun h => ?_⟩
  simpa [Recorder.startRecording] using h

/-- Claim C5, counterexample to the original statement: a denied
`startRecording` invoked over a `Ready` session (previous artifact handle
still present) leaves the state unchanged, hence with status `Ready`, not
`Idle` as the claim demands for every invocation. -/
theorem C5_counterexample :
    Recorder.startRecording false { resetHookState with audioUrl := some [1] }
        = ({ resetHookState with audioUrl := some [1] },
           some StartError.deviceUnavailable)
    ∧ statusOf (Recorder.startRecording false
        { resetHookState with audioUrl := some [1] }).1 = Status.Ready
    ∧ statusOf (Recorder.startRecording false
        { resetHookState with audioUrl := some [1] }).1 ≠ Status.Idle := by
  refine ⟨rfl, by decide, by decide⟩

/-- Claim C5, witness: denied start from the `Idle` state. -/
theorem C5_witness :
    Recorder.startRecording false resetHookState
        = (resetHookState, some StartError.deviceUnavailable)
    ∧ statusOf (Recorder.startRecording false resetHookState).1 = Status.Idle :=
  ⟨(C5_amended resetHookState).1, (C5_amended resetHookState).2 (by decide)⟩

/-- Claim C6 (amended).  In the `part_002` variant, when the recorder's
stop notification never fires the 2-second fallback timer still resolves
the stop: the session leaves `Capturing`, with the artifact assembled from
the chunks that had already arrived when at least one exists, and with the
artifact handle untouched (absent for a fresh session) when none arrived;
moreover the fallback resolution and the `onstop` resolution agree on the
resulting recording flag and artifact handle, so either winner of the race
yields an equivalent outcome.  The `src/src/hooks/useAudioRecorder.ts`
version has no fallback timer at all — its `stopRecording` leaves
`Capturing` synchronously, but if the notification never fires no artifact
is ever assembled (see the counterexample). -/
theorem C6_amended : ∀ (s0 : HookState) (ds : List Chunk),
    (sessionP2 s0 ds RecorderP2.StopSignal.fallbackTimeout).isRecording = false
    ∧ (ds.flatten ≠ [] →
        (sessionP2 s0 ds RecorderP2.StopSignal.fallbackTimeout).audioUrl
          = some ds.flatten)
    ∧ (ds.flatten = [] →
        (sessionP2 s0 ds RecorderP2.StopSignal.fallbackTimeout).audioUrl
          = s0.audioUrl)
    ∧ (∀ sig : RecorderP2.StopSignal,
        ((sessionP2 s0 ds sig).isRecording, (sessionP2 s0 ds sig).audioUrl)
          = ((sessionP2 s0 ds RecorderP2.StopSignal.fallbackTimeout).isRecording,
             (sessionP2 s0 ds RecorderP2.StopSignal.fallbackTimeout).audioUrl)) := by
  intro s0 ds
  refine ⟨sessionP2_isRecording s0 ds _,
    fun h => sessionP2_audioUrl_of_ne s0 ds h _,
    fun h => sessionP2_audioUrl_of_nil s0 ds h _, ?_⟩
  intro sig
  by_cases h : ds.flatten = []
  · rw [sessionP2_isRecording, sessionP2_isRecording,
      sessionP2_audioUrl_of_nil s0 ds h, sessionP2_audioUrl_of_nil s0 ds h]
  · rw [sessionP2_isRecording, sessionP2_isRecording,
      sessionP2_audioUrl_of_ne s0 ds h, sessionP2_audioUrl_of_ne s0 ds h]

/-- Claim C6, counterexample to the original statement: in
`src/src/hooks/useAudioRecorder.ts` there is no fallback timer.  After
`stopRecording` on a session holding one buffered chunk, if `onstop` never
fires the session has left `Capturing` but no artifact is ever assembled
(`audioUrl` stays `none` although a chunk arrived), so it never reaches
`Ready`. -/
theorem C6_counterexample :
    (Recorder.stopRecording noFaults
        (Recorder.ondataavailable [1, 2] (startedCapture resetHookState))).map
        (fun s => (s.isRecording, s.audioUrl, s.chunks))
      = Except.ok (false, none, [[1, 2]]) := by
  rfl

/-- Claim C6, witness: the fallback resolves a one-chunk session. -/
theorem C6_witness :
    (sessionP2 resetHookState [[4], [5]] RecorderP2.StopSignal.fallbackTimeout).isRecording
        = false
    ∧ (sessionP2 resetHookState [[4], [5]] RecorderP2.StopSignal.fallbackTimeout).audioUrl
        = some [4, 5] := by
  have h := C6_amended resetHookState [[4], [5]]
  exact ⟨h.1, h.2.1 (by decide)⟩

/-- Claim C2 (amended).  `forceReset` satisfies the claim in full: in any
state and under any combination of teardown faults it never re-throws,
every applicable release step is attempted (in source order), and the
resulting state is the initial one — `Idle`, `duration 0`, `audioLevel 0`,
empty chunk buffer, no artifact handle, all refs cleared.  `clearRecording`
performs the same teardown and yields the same reset state when no step
throws, but its steps are not individually guarded: a throwing step aborts
the remaining steps and the error propagates to the caller (see the
counterexample). -/
theorem C2_amended : ∀ (f : Faults) (s : HookState),
    Recorder.forceReset f s = (resetHookState, teardownAttempts s)
    ∧ Recorder.clearRecording noFaults s
        = Except.ok (resetHookState, clearAttempts s) := by
  intro f s
  obtain ⟨rec, pau, dur, url, upl, lvl, mr, so, iv, ac, an, ch⟩ := s
  constructor
  · cases mr <;> cases rec <;> cases so <;> cases iv <;> cases ac <;>
      cases url <;> rfl
  · cases mr <;> cases rec <;> cases so <;> cases iv <;> cases ac <;>
      cases url <;> rfl

/-- Claim C2, counterexample to the original statement: when the
track-stop release step throws, `clearRecording` re-throws to the caller,
skips the remaining release steps (the context close and interval clear
are never attempted) and leaves the state unchanged — not `Idle`, duration
not 0, artifact handle still present. -/
theorem C2_counterexample :
    Recorder.clearRecording ⟨false, true, false, false⟩
        { isRecording := true, isPaused := false, duration := 3,
          audioUrl := some [1], isUploading := false, audioLevel := 2,
          mediaRecorder := true, streamOpen := true, intervalSet := true,
          audioContext := true, analyser := true, chunks := [[1]] }
      = Except.error
          ({ isRecording := true, isPaused := false, duration := 3,
             audioUrl := some [1], isUploading := false, audioLevel := 2,
             mediaRecorder := true, streamOpen := true, intervalSet := true,
             audioContext := true, analyser := true, chunks := [[1]] },
           [TeardownStep.urlRevoke, TeardownStep.recorderStop,
            TeardownStep.trackStop]) := by
  rfl

/-- Claim C2, witness: `forceReset` on a fully loaded state with every
teardown call throwing still resets everything and attempts every step. -/
theorem C2_witness :
    Recorder.forceReset ⟨true, true, true, true⟩
        { isRecording := true, isPaused := false, duration := 3,
          audioUrl := some [1], isUploading := false, audioLevel := 2,
          mediaRecorder := true, streamOpen := true, intervalSet := true,
          audioContext := true, analyser := true, chunks := [[1]] }
      = (resetHookState,
         [TeardownStep.recorderStop, TeardownStep.trackStop,
          TeardownStep.intervalClear, TeardownStep.contextClose,
          TeardownStep.urlRevoke]) :=
  (C2_amended ⟨true, true, true, true⟩
      { isRecording := true, isPaused := false, duration := 3,
        audioUrl := some [1], isUploading := false, audioLevel := 2,
        mediaRecorder := true, streamOpen := true, intervalSet := true,
        audioContext := true, analyser := true, chunks := [[1]] }).1

lemma sysInv_init : sysInv sysInit := by
  refine ⟨?_, ?_, ?_, ?_⟩ <;> intro h <;> simp [sysInit] at h

lemma sysStep_inv (s : Sys) (e : Ev) (h : sysInv s) : sysInv (sysStep 90 s e) := by
  obtain ⟨h1, h2, h3, h4⟩ := h
  cases e with
  | start =>
      by_cases hc : s.isRecording = false ∧ s.duration < 90
      · simp only [sysStep, if_pos hc]
        refine ⟨fun _ => rfl, fun _ => rfl, fun _ => rfl, fun hd => ?_⟩
        simp at hd
      · simp only [sysStep, if_neg hc]
        exact ⟨h1, h2, h3, h4⟩
  | data d =>
      by_cases hc : s.recorder = true ∧ 0 < d.length
      · simp only [sysStep, if_pos hc]
        exact ⟨h1, h2, h3, h4⟩
      · simp only [sysStep, if_neg hc]
        exact ⟨h1, h2, h3, h4⟩
  | tick =>
      by_cases hi : s.interval = true
      · have hr : s.isRecording = true := h1 hi
        have hrec : s.recorder = true := h3 hr
        have hst : s.started = true := h2 hr
        by_cases hd : 90 ≤ s.duration + 1
        · simp only [sysStep, if_pos hi, if_pos (And.intro hr hd), sysStop,
            if_pos (And.intro hrec hr)]
          exact ⟨fun hx => absurd hx (by simp), fun hx => absurd hx (by simp),
            fun hx => absurd hx (by simp), fun _ => ⟨rfl, hst⟩⟩
        · simp only [sysStep, if_pos hi]
          rw [if_neg (fun hx => hd hx.2)]
          exact ⟨fun _ => hr, fun _ => hst, fun _ => hrec,
            fun hx => absurd hx hd⟩
      · simp only [sysStep, if_neg hi]
        exact ⟨h1, h2, h3, h4⟩
  | stop =>
      by_cases hc : s.recorder = true ∧ s.isRecording = true
      · simp only [sysStep, sysStop, if_pos hc]
        exact ⟨fun hx => absurd hx (by simp), fun hx => absurd hx (by simp),
          fun hx => absurd hx (by simp), fun _ => ⟨rfl, h2 hc.2⟩⟩
      · simp only [sysStep, sysStop, if_neg hc]
        exact ⟨h1, h2, h3, h4⟩
  | complete =>
      by_cases hc : s.pendingStop = true
      · simp only [sysStep, if_pos hc]
        exact ⟨h1, h2, h3, h4⟩
      · simp only [sysStep, if_neg hc]
        exact ⟨h1, h2, h3, h4⟩
  | clear =>
      simp only [sysStep]
      refine ⟨fun hx => ?_, fun hx => ?_, fun hx => ?_, fun hx => ?_⟩ <;>
        simp at hx

lemma sysInv_foldl (es : List Ev) : ∀ s : Sys, sysInv s →
    sysInv (es.foldl (sysStep 90) s) := by
  induction es with
  | nil => intro s h; simpa using h
  | cons e es ih =>
      intro s h
      rw [List.foldl_cons]
      exact ih _ (sysStep_inv s e h)

/-- Claim C7 (confirmed).  In the coupled system — the hook driven by the
`AudioRecorder` host, whose auto-stop effect calls `stopRecording` as soon
as `isRecording && duration >= timeLimit` and whose Start button is not
available once the limit is reached — every reachable state whose elapsed
time has reached the 90-second limit is `Ready` or `Failed`, never
`Capturing`. -/
theorem C7_autostop : ∀ (es : List Ev),
    90 ≤ (sysRun 90 es).duration →
    sysStatus (sysRun 90 es) = Status.Ready
      ∨ sysStatus (sysRun 90 es) = Status.Failed := by
  intro es hd
  have hinv : sysInv (sysRun 90 es) := sysInv_foldl es sysInit sysInv_init
  obtain ⟨-, -, -, h4⟩ := hinv
  obtain ⟨hrec, hst⟩ := h4 hd
  by_cases ha : (sysRun 90 es).audioUrl.isSome = true
  · left
    simp [sysStatus, hrec, hst, ha]
  · right
    simp [sysStatus, hrec, hst, ha]

set_option maxRecDepth 8000 in
/-- Claim C7, witness: a session started and ticked to the 90-second
limit has been auto-stopped and is `Ready` or `Failed`. -/
theorem C7_witness :
    90 ≤ (sysRun 90 (Ev.start :: List.replicate 90 Ev.tick)).duration
    ∧ (sysStatus (sysRun 90 (Ev.start :: List.replicate 90 Ev.tick)) = Status.Ready
       ∨ sysStatus (sysRun 90 (Ev.start :: List.replicate 90 Ev.tick)) = Status.Failed) :=
  ⟨by decide, C7_autostop (Ev.start :: List.replicate 90 Ev.tick) (by decide)⟩

lemma sysStep_handle (limit : Nat) (s : Sys) (e : Ev)
    (h : s.audioUrl.isSome = s.completed) :
    (sysStep limit s e).audioUrl.isSome = (sysStep limit s e).completed := by
  cases e with
  | start =>
      by_cases hc : s.isRecording = false ∧ s.duration < limit <;>
        simp [sysStep, hc, h]
  | data d =>
      by_cases hc : s.recorder = true ∧ 0 < d.length <;>
        simp [sysStep, hc, h]
  | tick =>
      by_cases hc : s.interval = true
      · simp only [sysStep, if_pos hc, sysStop]
        split_ifs <;> simp [h]
      · simp [sysStep, hc, h]
  | stop =>
      simp only [sysStep, sysStop]
      split_ifs <;> simp [h]
  | complete =>
      by_cases hc : s.pendingStop = true <;> simp [sysStep, hc, h]
  | clear => simp [sysStep]

lemma sysRun_handle (limit : Nat) (es : List Ev) : ∀ s : Sys,
    s.audioUrl.isSome = s.completed →
    (es.foldl (sysStep limit) s).audioUrl.isSome
      = (es.foldl (sysStep limit) s).completed := by
  induction es with
  | nil => intro s h; simpa using h
  | cons e es ih =>
      intro s h
      rw [List.foldl_cons]
      exact ih _ (sysStep_handle limit s e h)

/-- Claim C8 (amended).  In every reachable state of the system, the
artifact handle is present iff a stop completion (`onstop`) has fired
since the last clear/reset.  This is weaker than the original claim:
`startRecording` does not clear `audioUrl`, so after restarting over a
`Ready` session the previous handle remains observable while the new
session is `Capturing` (see the counterexample); presence of the handle
therefore does not imply status `Ready`. -/
theorem C8_amended : ∀ (limit : Nat) (es : List Ev),
    (sysRun limit es).audioUrl.isSome = (sysRun limit es).completed := by
  intro limit es
  exact sysRun_handle limit es sysInit rfl

/-- Claim C8, counterexample to the original statement: after the trace
start, data, stop, completion, start, the session is `Capturing` while
the previous artifact handle is still present, so the handle exists in a
state whose status is not `Ready`. -/
theorem C8_counterexample :
    (sysRun 90 [Ev.start, Ev.data [1], Ev.stop, Ev.complete, Ev.start]).isRecording = true
    ∧ (sysRun 90 [Ev.start, Ev.data [1], Ev.stop, Ev.complete, Ev.start]).audioUrl
        = some [1]
    ∧ sysStatus (sysRun 90 [Ev.start, Ev.data [1], Ev.stop, Ev.complete, Ev.start])
        = Status.Capturing
    ∧ ¬ ((sysRun 90 [Ev.start, Ev.data [1], Ev.stop, Ev.complete, Ev.start]).audioUrl.isSome
          = true
        ↔ sysStatus (sysRun 90 [Ev.start, Ev.data [1], Ev.stop, Ev.complete, Ev.start])
            = Status.Ready) := by
  decide

/-- Claim C9 (confirmed).  `getAudioBlob` is a pure function of the
session state (so it can be called at any time, including mid-capture,
and changes nothing): it returns `none` exactly when no chunk has been
captured, and otherwise the blob assembled from the chunks captured so
far — their concatenation in arrival order, whose byte length is the sum
of the chunk lengths. -/
theorem C9_getAudioBlob : ∀ s : HookState,
    (Recorder.getAudioBlob s = none ↔ s.chunks = [])
    ∧ (s.chunks ≠ [] →
        Recorder.getAudioBlob s = some s.chunks.flatten
        ∧ s.chunks.flatten.length = (s.chunks.map List.length).sum) := by
  intro s
  constructor
  · constructor
    · intro h
      by_contra hc
      simp [Recorder.getAudioBlob, List.length_pos.mpr hc] at h
    · intro h
      simp [Recorder.getAudioBlob, h]
  · intro h
    exact ⟨by simp [Recorder.getAudioBlob, List.length_pos.mpr h],
      List.length_flatten _⟩

/-- Claim C9, witness: a mid-capture state holding two chunks. -/
theorem C9_witness :
    ({ resetHookState with isRecording := true, chunks := [[1], [2, 3]] } : HookState).chunks
      ≠ []
    ∧ Recorder.getAudioBlob
        { resetHookState with isRecording := true, chunks := [[1], [2, 3]] }
        = some [1, 2, 3] := by
  have h := (C9_getAudioBlob
    { resetHookState with isRecording := true, chunks := [[1], [2, 3]] }).2
    (by decide)
  exact ⟨by decide, h.1⟩

/-- Claim C10 (confirmed).  The per-question history list never holds
more than 5 entries and is ordered newest first: `fetchRecordings` keeps
at most the first 5 rows of the question's rows sorted by creation time
descending, and `addRecording` prepends the new recording to the 4 most
recent previous entries (preserving the newest-first order whenever the
new recording is at least as recent as the existing ones). -/
theorem C10_history : ∀ (table : List UserRecording) (qid : String),
    (fetchRecordings table qid).length ≤ 5
    ∧ List.Sorted newestFirst (fetchRecordings table qid)
    ∧ ∀ (r : UserRecording) (prev : List UserRecording),
        addRecording r prev = r :: prev.take 4
        ∧ (addRecording r prev).length ≤ 5
        ∧ (List.Sorted newestFirst prev →
            (∀ x ∈ prev, x.created_at ≤ r.created_at) →
            List.Sorted newestFirst (addRecording r prev)) := by
  intro table qid
  refine ⟨?_, ?_, ?_⟩
  · exact List.length_take_le 5 _
  · exact List.Pairwise.sublist (List.take_sublist 5 _)
      (List.sorted_insertionSort newestFirst _)
  · intro r prev
    refine ⟨rfl, ?_, ?_⟩
    · have := List.length_take_le 4 prev
      simp only [addRecording, List.length_cons]
      omega
    · intro hs hle
      rw [addRecording, List.sorted_cons]
      refine ⟨fun b hb => hle b (List.take_subset 4 prev hb), ?_⟩
      exact List.Pairwise.sublist (List.take_sublist 4 prev) hs

/-- Claim C10, witness: a concrete three-row table and a concrete
prepend over a sorted two-entry history. -/
theorem C10_witness :
    (fetchRecordings
        [⟨1, none, "q", "u1", 3, 10⟩, ⟨2, none, "q", "u2", 4, 25⟩,
         ⟨3, none, "other", "u3", 5, 99⟩] "q").length ≤ 5
    ∧ List.Sorted newestFirst
        (fetchRecordings
          [⟨1, none, "q", "u1", 3, 10⟩, ⟨2, none, "q", "u2", 4, 25⟩,
           ⟨3, none, "other", "u3", 5, 99⟩] "q")
    ∧ List.Sorted newestFirst
        (addRecording ⟨4, none, "q", "u4", 6, 40⟩
          [⟨2, none, "q", "u2", 4, 25⟩, ⟨1, none, "q", "u1", 3, 10⟩]) := by
  have h := C10_history
    [⟨1, none, "q", "u1", 3, 10⟩, ⟨2, none, "q", "u2", 4, 25⟩,
     ⟨3, none, "other", "u3", 5, 99⟩] "q"
  refine ⟨h.1, h.2.1, ?_⟩
  exact (h.2.2 ⟨4, none, "q", "u4", 6, 40⟩
      [⟨2, none, "q", "u2", 4, 25⟩, ⟨1, none, "q", "u1", 3, 10⟩]).2.2
    (by decide) (by decide)
